import Mathlib

/-!
Verification development for the Vibe Code Assistant plan generator
(`src/app.py`).  The Python functions relevant to the specification claims
are shallowly embedded as executable Lean definitions:

* configurations are records of optional fields (a `none` field models an
  absent dictionary key, `some ""` a key bound to the empty string, so that
  Python truthiness tests are expressible);
* `round` on `days * percentage / 100` is modelled as round-half-to-even on
  the exact rational `days * percentage / 100`, computed over naturals.
  For the operands the program produces (percentages are multiples of 5,
  day counts far below 2^40) IEEE double arithmetic is exact on ties and
  more than 0.04 away from a tie otherwise, so this agrees with Python
  `round` on floats;
* `datetime.now()` is passed in as explicit string parameters;
* `json.dumps` / `json.loads` are embedded for the value shapes the
  program stores (string lists and string-keyed dictionaries of string
  lists), for strings of printable ASCII characters, on which Python emits
  each character verbatim apart from escaping quote and backslash;
* `str.title` is modelled at ASCII granularity (the plan only
  title-cases enumerated ASCII values); `str.lower` and the
  Unicode-aware regex class `\w` are modelled exactly on code points
  below 0x100 (ASCII and Latin-1); code points above 0xFF are treated as
  caseless non-word characters, an under-approximation, so the sanitizer
  theorems restrict their inputs to the exact domain.
-/

/-- Decimal digit character for a value below ten. -/
def digitChar10 (n : ℕ) : Char := Char.ofNat (48 + n)

/-- Fuel-driven decimal rendering of a natural number, most significant
digit first.  Mirrors Python `str` on non-negative integers. -/
def natStrAux : ℕ → ℕ → List Char
  | 0, _ => []
  | fuel + 1, n =>
    if n < 10 then [digitChar10 n]
    else natStrAux fuel (n / 10) ++ [digitChar10 (n % 10)]

/-- Decimal rendering of a natural number as a string. -/
def natStr (n : ℕ) : String := ⟨natStrAux (n + 1) n⟩

/-- Project configuration as submitted to the API.  Each optional field
models a Python dictionary key that may be absent (`none`). -/
structure Config where
  title : Option String := none
  description : Option String := none
  project_type : Option String := none
  timeline : Option String := none
  difficulty : Option String := none
  tech_stack : Option (List (String × List String)) := none
  features : Option (List String) := none
  deployment_platform : Option String := none
  repo_name : Option String := none
  github_username : Option String := none
  include_readme : Option Bool := none
  include_license : Option Bool := none
  include_gitignore : Option Bool := none
  include_venv : Option Bool := none
  deriving Repr, DecidableEq

/-- Truthiness of `data.get(field)` for a string-valued field: false for an
absent key and for the empty string, mirroring Python. -/
def truthyStr : Option String → Bool
  | none => false
  | some s => !(s == "")

/-- Python `x or default` for an optional string field. -/
def orDefault (o : Option String) (d : String) : String :=
  match o with
  | none => d
  | some s => if s = "" then d else s

/-- Enumerated project types (`valid_types` in `validate_project_data`). -/
def valid_types : List String := ["fullstack", "frontend", "backend"]

/-- Enumerated timelines (`valid_timelines` in `validate_project_data`). -/
def valid_timelines : List String :=
  ["weekend", "1week", "2weeks", "1month", "3months", "open"]

/-- Enumerated difficulties (`valid_difficulties` in
`validate_project_data`). -/
def valid_difficulties : List String :=
  ["beginner", "intermediate", "advanced", "expert"]

/-- Embedding of `validate_project_data` (src/app.py:117-141): the
presence loop over `required_fields` unrolled in order, followed by the
three enum membership checks, returning the `(bool, message)` pair. -/
def validate_project_data (data : Config) : Bool × Option String :=
  if !truthyStr data.project_type then
    (false, some "Missing required field: project_type")
  else if !truthyStr data.timeline then
    (false, some "Missing required field: timeline")
  else if !truthyStr data.difficulty then
    (false, some "Missing required field: difficulty")
  else
    let pt := (data.project_type).getD ""
    let tl := (data.timeline).getD ""
    let df := (data.difficulty).getD ""
    if pt ∉ valid_types then
      (false, some ("Invalid project type: " ++ pt))
    else if tl ∉ valid_timelines then
      (false, some ("Invalid timeline: " ++ tl))
    else if df ∉ valid_difficulties then
      (false, some ("Invalid difficulty: " ++ df))
    else
      (true, none)

/-- Timeline-to-day-count mapping used by `generate_project_plan`
(src/app.py:547-559) and `create_project` (src/app.py:183-195): the
variable starts at 7 and the if/elif chain overrides it for the six
enumerated values, so every other string maps to 7. -/
def timelineDaysOf (timeline : String) : ℕ :=
  if timeline = "weekend" then 3
  else if timeline = "1week" then 7
  else if timeline = "2weeks" then 14
  else if timeline = "1month" then 30
  else if timeline = "3months" then 90
  else if timeline = "open" then 0
  else 7

/-- Lookup in the tech-stack dictionary: Python `tech_stack.get(key, [])`. -/
def tsGet (ts : List (String × List String)) (key : String) : List String :=
  (ts.lookup key).getD []

/-- Embedding of `format_tech_list` (src/app.py:638-642). -/
def format_tech_list (tech_list : List String) : String :=
  if tech_list = [] then "- *No specific technologies selected*"
  else String.intercalate "\n" (tech_list.map (fun tech => "- " ++ tech))

/-- Embedding of `format_features_list` (src/app.py:644-648). -/
def format_features_list (features : List String) : String :=
  if features = [] then "- *No specific features selected*"
  else String.intercalate "\n" (features.map (fun feature => "- ✅ " ++ feature))

/-- Round-half-to-even of `n / 100` over naturals: the value of Python
`round(days * percentage / 100)` at `n = days * percentage` (exact for the
operand ranges this program produces, see the file header). -/
def pyRound100 (n : ℕ) : ℕ :=
  let q := n / 100
  let r := n % 100
  if r < 50 then q
  else if 50 < r then q + 1
  else if q % 2 = 0 then q else q + 1

/-- Day span of one phase: `max(1, round(days * percentage / 100))`
(src/app.py:685). -/
def phaseSpan (days pct : ℕ) : ℕ := max 1 (pyRound100 (days * pct))

/-- Phase-template selection of `generate_timeline_phases`
(src/app.py:653-679): name, percentage and task list per phase, bucketed
by the day count. -/
def phasesFor (days : ℕ) : List (String × ℕ × List String) :=
  if days ≤ 3 then
    [("Planning & Setup", 20, ["Project setup", "Environment configuration", "Basic structure"]),
     ("Core Development", 60, ["Implement main features", "Basic functionality"]),
     ("Testing & Polish", 20, ["Bug fixes", "Basic testing", "Documentation"])]
  else if days ≤ 7 then
    [("Planning & Setup", 15, ["Project setup", "Environment configuration", "Architecture planning"]),
     ("Core Development", 50, ["Database models", "API routes", "Basic UI"]),
     ("Features & Integration", 25, ["Implement features", "Third-party integrations"]),
     ("Testing & Polish", 10, ["Testing", "Bug fixes", "Documentation"])]
  else if days ≤ 14 then
    [("Planning & Setup", 10, ["Project setup", "Environment configuration", "Architecture planning"]),
     ("Core Development", 40, ["Database models", "API routes", "Basic UI"]),
     ("Features & Integration", 35, ["Implement features", "Third-party integrations", "Advanced functionality"]),
     ("Testing & Polish", 15, ["Comprehensive testing", "Bug fixes", "Performance optimization", "Documentation"])]
  else
    [("Planning & Setup", 10, ["Project setup", "Environment configuration", "Architecture planning", "Team setup"]),
     ("Core Development", 35, ["Database models", "API routes", "Basic UI", "Core features"]),
     ("Features & Integration", 35, ["Implement features", "Third-party integrations", "Advanced functionality", "AI/ML integration"]),
     ("Testing & Polish", 20, ["Comprehensive testing", "Performance optimization", "Security audit", "Documentation", "Deployment"])]

/-- Sequential layout loop of `generate_timeline_phases`
(src/app.py:681-693): starting from `current_day`, each phase occupies
`phaseSpan days pct` days, producing `(name, startDay, endDay, tasks)`. -/
def layoutPhases (days : ℕ) : ℕ → List (String × ℕ × List String) → List (String × ℕ × ℕ × List String)
  | _, [] => []
  | current, (name, pct, tasks) :: rest =>
    let span := phaseSpan days pct
    (name, current, current + span - 1, tasks) :: layoutPhases days (current + span) rest

/-- Markdown rendering of one laid-out phase (the loop body at
src/app.py:688-691). -/
def renderPhase (p : String × ℕ × ℕ × List String) : String :=
  "### " ++ p.1 ++ " (Day " ++ natStr p.2.1 ++ "-" ++ natStr p.2.2.1 ++ ")\n"
    ++ String.join (p.2.2.2.map (fun task => "- [ ] " ++ task ++ "\n"))
    ++ "\n"

/-- Embedding of `generate_timeline_phases` (src/app.py:650-695).  The
`project_type` and `difficulty` parameters are accepted and ignored,
exactly as in the source. -/
def generate_timeline_phases (days : ℕ) (project_type difficulty : String) : String :=
  String.join ((layoutPhases days 1 (phasesFor days)).map renderPhase)

/-- Sum of the phase-day spans the synthesizer computes for a given day
count. -/
def totalSpan (days : ℕ) : ℕ :=
  ((phasesFor days).map (fun p => phaseSpan days p.2.1)).sum

/-- Day ranges (start, end) of the laid-out phases. -/
def rangesOf (days : ℕ) : List (ℕ × ℕ) :=
  (layoutPhases days 1 (phasesFor days)).map (fun p => (p.2.1, p.2.2.1))

/-- Contiguity of a list of day ranges from a given start day: each range
begins where expected, ends no earlier than it begins, and the next range
begins the following day. -/
def Contiguous : ℕ → List (ℕ × ℕ) → Prop
  | _, [] => True
  | s, (a, b) :: rest => a = s ∧ s ≤ b ∧ Contiguous (b + 1) rest

/-- Model of Python `str.lower` on one character, exact on code points
below 0x100: ASCII `A`-`Z` and the Latin-1 uppercase letters (code
points 192-222 except 215, the multiplication sign) map 32 code points
down; every other character in that range is caseless or already
lowercase and is returned unchanged.  Code points above 0xFF, whose case
mapping Python takes from the full Unicode tables, are returned
unchanged. -/
def pyLowerChar (c : Char) : Char :=
  if (65 ≤ c.toNat ∧ c.toNat ≤ 90) ∨ (192 ≤ c.toNat ∧ c.toNat ≤ 222 ∧ c.toNat ≠ 215) then
    Char.ofNat (c.toNat + 32)
  else c

/-- ASCII model of Python `str.title` on a character list: a letter is
upper-cased when the previous character was not a letter and lower-cased
otherwise (digits and symbols are uncased word separators, so `"1week"`
titles to `"1Week"`). -/
def pyTitleAux : Bool → List Char → List Char
  | _, [] => []
  | prevCased, c :: cs =>
    if c.isAlpha then
      (if prevCased then c.toLower else c.toUpper) :: pyTitleAux true cs
    else
      c :: pyTitleAux false cs

/-- ASCII model of Python `str.title`. -/
def pyTitle (s : String) : String := ⟨pyTitleAux false s.data⟩

/-- Python `s.replace(old, new)` for single characters. -/
def replaceChar (old new : Char) (s : String) : String :=
  ⟨s.data.map (fun c => if c = old then new else c)⟩

/-- Human formatting applied to enum fields in the plan:
`value.replace('_', ' ').title()`. -/
def humanize (s : String) : String := pyTitle (replaceChar '_' ' ' s)

/-- Embedding of `generate_getting_started` (src/app.py:754-802),
mirroring the imperative `instructions +=` accumulation statement by
statement, with the same default parameter values applied by the caller. -/
def generate_getting_started (tech_stack : List (String × List String))
    (project_type github_username repo_name : String) : String :=
  let frontend := tsGet tech_stack "frontend"
  let backend := tsGet tech_stack "backend"
  let ins := "1. Clone the repository:\n"
  let ins := ins ++ "   ```bash\n"
  let ins := ins ++ ("   git clone https://github.com/" ++ github_username ++ "/" ++ repo_name ++ ".git\n")
  let ins := ins ++ ("   cd " ++ repo_name ++ "\n")
  let ins := ins ++ "   ```\n\n"
  let ins :=
    if project_type ∈ ["fullstack", "frontend"] ∧ frontend ≠ [] then
      let ins := ins ++ "2. Set up frontend:\n"
      let ins := ins ++ "   ```bash\n"
      let ins :=
        if "React" ∈ frontend then
          ins ++ "   cd frontend\n" ++ "   npm install\n" ++ "   npm start\n"
        else if "Vue.js" ∈ frontend then
          ins ++ "   cd frontend\n" ++ "   npm install\n" ++ "   npm run dev\n"
        else
          ins ++ "   # Follow the specific setup instructions for your chosen frontend\n"
      ins ++ "   ```\n\n"
    else ins
  let ins :=
    if project_type ∈ ["fullstack", "backend"] ∧ backend ≠ [] then
      let ins := ins ++ "3. Set up backend:\n"
      let ins := ins ++ "   ```bash\n"
      let ins :=
        if "Python" ∈ backend ∨ "Flask" ∈ backend then
          ins ++ "   cd backend\n" ++ "   python -m venv venv\n"
            ++ "   source venv/bin/activate  # On Windows: venv\\Scripts\\activate\n"
            ++ "   pip install -r requirements.txt\n" ++ "   python app.py\n"
        else if "Node.js" ∈ backend then
          ins ++ "   cd backend\n" ++ "   npm install\n" ++ "   npm start\n"
        else
          ins ++ "   # Follow the specific setup instructions for your chosen backend\n"
      ins ++ "   ```\n\n"
    else ins
  let ins := ins ++ "4. Set up environment variables (copy .env.example to .env)\n"
  let ins := ins ++ "5. Start development servers\n"
  let ins := ins ++ "6. Open your browser to the frontend URL\n"
  ins

/-- Embedding of `generate_file_structure` (src/app.py:697-752): a pure
lookup of one of three canned diagrams, defaulting to the fullstack one. -/
def generate_file_structure (project_type repo_name : String) : String :=
  let fullstackDiagram :=
    "📁 " ++ repo_name ++ "/\n├── 📁 frontend/\n│   ├── 📄 package.json\n│   ├── 📁 src/\n│   │   ├── 📁 components/\n│   │   ├── 📁 pages/\n│   │   └── 📁 assets/\n│   └── 📄 index.html\n├── 📁 backend/\n│   ├── 📄 app.py / server.js\n│   ├── 📄 requirements.txt / package.json\n│   ├── 📁 models/\n│   ├── 📁 routes/\n│   └── 📁 utils/\n├── 📁 database/\n│   └── 📄 migrations/\n├── 📄 docker-compose.yml\n├── 📄 .env.example\n├── 📄 .gitignore\n├── 📄 README.md\n└── 📄 LICENSE"
  let frontendDiagram :=
    "📁 " ++ repo_name ++ "/\n├── 📁 src/\n│   ├── 📁 components/\n│   ├── 📁 pages/\n│   ├── 📁 assets/\n│   └── 📁 styles/\n├── 📄 package.json\n├── 📄 vite.config.js / webpack.config.js\n├── 📄 .gitignore\n├── 📄 README.md\n├── 📄 index.html\n└── 📄 LICENSE"
  let backendDiagram :=
    "📁 " ++ repo_name ++ "/\n├── 📁 src/\n│   ├── 📁 controllers/\n│   ├── 📁 models/\n│   ├── 📁 routes/\n│   ├── 📁 middleware/\n│   └── 📁 utils/\n├── 📄 package.json / requirements.txt\n├── 📄 server.js / app.py\n├── 📄 .env.example\n├── 📄 .gitignore\n├── 📄 README.md\n├── 📄 dockerfile\n└── 📄 LICENSE"
  if project_type = "fullstack" then fullstackDiagram
  else if project_type = "frontend" then frontendDiagram
  else if project_type = "backend" then backendDiagram
  else fullstackDiagram

/-- Python `'Yes' if flag else 'No'`. -/
def yesNo (b : Bool) : String := if b then "Yes" else "No"

/-- Embedding of `generate_project_plan` (src/app.py:534-636).  The two
`datetime.now()` reads are passed in as explicit strings.  As in the
source, the timeline phases, file structure and getting-started text are
computed but never interpolated into the returned document. -/
def generate_project_plan (project_data : Config) (nowDateTime nowDate : String) : String :=
  let title := orDefault project_data.title "Untitled Project"
  let description := orDefault project_data.description "No description provided"
  let project_type := (project_data.project_type).getD "fullstack"
  let timeline := (project_data.timeline).getD "1week"
  let difficulty := (project_data.difficulty).getD "intermediate"
  let timeline_days := timelineDaysOf timeline
  let tech_stack := (project_data.tech_stack).getD []
  let features := (project_data.features).getD []
  let deployment_platform := (project_data.deployment_platform).getD "github"
  let repo_name := (project_data.repo_name).getD "my-project"
  let github_username := (project_data.github_username).getD "yourusername"
  let include_readme := (project_data.include_readme).getD true
  let include_license := (project_data.include_license).getD false
  let include_gitignore := (project_data.include_gitignore).getD true
  let _phases := generate_timeline_phases timeline_days project_type difficulty
  let _file_structure := generate_file_structure project_type repo_name
  let _getting_started := generate_getting_started tech_stack project_type github_username repo_name
  "# " ++ title ++ "\n\n## 📋 Project Overview\n" ++ description
    ++ "\n\n## 🎯 Project Details\n- **Type:** " ++ humanize project_type
    ++ "\n- **Timeline:** " ++ humanize timeline ++ " (" ++ natStr timeline_days ++ " days)"
    ++ "\n- **Difficulty:** " ++ pyTitle difficulty
    ++ "\n- **Created:** " ++ nowDateTime
    ++ "\n\n## 🛠️ Tech Stack\n### Frontend\n" ++ format_tech_list (tsGet tech_stack "frontend")
    ++ "\n\n### Backend\n" ++ format_tech_list (tsGet tech_stack "backend")
    ++ "\n\n### Database & Storage\n" ++ format_tech_list (tsGet tech_stack "database")
    ++ "\n\n### Tools & DevOps\n" ++ format_tech_list (tsGet tech_stack "tools")
    ++ "\n\n## ✨ Features\n" ++ format_features_list features
    ++ "\n\n## 🚀 Deployment\n- **Platform:** " ++ humanize deployment_platform
    ++ "\n- **Repository:** https://github.com/" ++ github_username ++ "/" ++ repo_name
    ++ "\n- **Include README:** " ++ yesNo include_readme
    ++ "\n- **Include License:** " ++ yesNo include_license
    ++ "\n- **Include .gitignore:** " ++ yesNo include_gitignore
    ++ "\n- **Include Virtual Environment Setup:** " ++ yesNo ((project_data.include_venv).getD true)
    ++ "\n\n---\n*Generated by Vibe Code Assistant on " ++ nowDate ++ "*\n"

/-- Embedding of the `/api/generate` handler `generate_project`
(src/app.py:251-271): it reads `data.get('project', {})` and renders the
plan without any validation step; every embedded component is total, so
the `except` branch returning 500 is unreachable in the model. -/
def generate_project_handler (project : Config) (nowDateTime nowDate : String) :
    Except (ℕ × String) String :=
  .ok (generate_project_plan project nowDateTime nowDate)

/-- Model of the Unicode-aware `\w` Python applies to `str` patterns
(alphanumeric per `str.isalnum`, or underscore), exact on code points
below 0x100: ASCII digits, letters and underscore, the Latin-1
alphanumeric signs (feminine/masculine ordinals 170/186, superscripts
178/179/185, micro sign 181, vulgar fractions 188/189/190) and the
Latin-1 letters (192-255 except the multiplication sign 215 and the
division sign 247).  Code points above 0xFF, many of which are word
characters in Python's full Unicode tables, are treated as non-word; the
sanitizer theorems restrict their inputs away from them. -/
def pyWordChar (c : Char) : Bool :=
  decide ((48 ≤ c.toNat ∧ c.toNat ≤ 57)
    ∨ (65 ≤ c.toNat ∧ c.toNat ≤ 90)
    ∨ (97 ≤ c.toNat ∧ c.toNat ≤ 122)
    ∨ c.toNat = 95
    ∨ c.toNat = 170 ∨ c.toNat = 178 ∨ c.toNat = 179 ∨ c.toNat = 181
    ∨ c.toNat = 185 ∨ c.toNat = 186 ∨ c.toNat = 188 ∨ c.toNat = 189 ∨ c.toNat = 190
    ∨ (192 ≤ c.toNat ∧ c.toNat ≤ 255 ∧ c.toNat ≠ 215 ∧ c.toNat ≠ 247))

/-- Characters kept by the sanitizer regex `[^\w\-_]`: word characters
and the hyphen (code point 45). -/
def allowedRepoChar (c : Char) : Bool := pyWordChar c || c.toNat = 45

/-- Python `.replace(' ', '-')` on one character. -/
def spaceToHyphen (c : Char) : Char := if c = ' ' then '-' else c

/-- Repository-name sanitization used by the download path
(src/app.py:291): lower-case, then map spaces to hyphens, then drop every
character outside `[\w\-_]`. -/
def sanitizeRepoName (s : String) : String :=
  ⟨((s.data.map pyLowerChar).map spaceToHyphen).filter allowedRepoChar⟩

/-- Repository directory name chosen by the `/api/download` handler
(src/app.py:291): the submitted `repo_name` (default `my-project`),
sanitized. -/
def download_repo_name (project : Config) : String :=
  sanitizeRepoName ((project.repo_name).getD "my-project")

/-- Download attachment name (src/app.py:314): `{repo_name}.zip`. -/
def download_filename (project : Config) : String :=
  download_repo_name project ++ ".zip"

/-- JSON escaping of one character as `json.dumps` performs it on the
printable ASCII range: quote and backslash get a backslash prefix, every
other character is emitted verbatim. -/
def escapeJsonChar (c : Char) : List Char :=
  if c = '"' ∨ c = '\\' then ['\\', c] else [c]

/-- JSON escaping of a character list. -/
def escapeJson : List Char → List Char
  | [] => []
  | c :: cs => escapeJsonChar c ++ escapeJson cs

/-- JSON string literal: opening quote, escaped body, closing quote. -/
def jsonQuote (s : String) : List Char :=
  '"' :: (escapeJson s.data ++ ['"'])

/-- Body of a JSON array of strings after the opening bracket, with the
`', '` item separator `json.dumps` uses by default. -/
def jsonArrBody : List String → List Char
  | [] => [']']
  | [s] => jsonQuote s ++ [']']
  | s :: s' :: rest => jsonQuote s ++ [',', ' '] ++ jsonArrBody (s' :: rest)

/-- Embedding of `json.dumps` on a list of strings
(`json.dumps(data.get('features', []))`, src/app.py:206). -/
def dumpsList (l : List String) : String := ⟨'[' :: jsonArrBody l⟩

/-- Body of a JSON object mapping strings to string arrays after the
opening brace, with the `': '` and `', '` separators `json.dumps` uses. -/
def jsonObjBody : List (String × List String) → List Char
  | [] => ['}']
  | [(k, v)] => jsonQuote k ++ [':', ' '] ++ ('[' :: jsonArrBody v) ++ ['}']
  | (k, v) :: p :: rest =>
    jsonQuote k ++ [':', ' '] ++ ('[' :: jsonArrBody v) ++ [',', ' '] ++ jsonObjBody (p :: rest)

/-- Embedding of `json.dumps` on a string-keyed dictionary of string lists
(`json.dumps(data.get('tech_stack', {}))`, src/app.py:205). -/
def dumpsDict (d : List (String × List String)) : String := ⟨'{' :: jsonObjBody d⟩

/-- JSON string-literal parser, entered just after the opening quote:
returns the decoded body and the characters following the closing
quote. -/
def parseQStr : List Char → Option (List Char × List Char)
  | [] => none
  | c :: rest =>
    if c = '"' then some ([], rest)
    else if c = '\\' then
      match rest with
      | [] => none
      | e :: rest' =>
        if e = '"' ∨ e = '\\' then (parseQStr rest').map (fun p => (e :: p.1, p.2))
        else none
    else (parseQStr rest).map (fun p => (c :: p.1, p.2))

/-- JSON string-array parser, entered just after the opening bracket;
the fuel bounds the number of items. -/
def parseArrAux : ℕ → List Char → Option (List String × List Char)
  | 0, _ => none
  | _ + 1, [] => none
  | fuel + 1, c :: rest =>
    if c = ']' then some ([], rest)
    else if c = '"' then
      match parseQStr rest with
      | none => none
      | some (s, r) =>
        match r with
        | ',' :: ' ' :: r' => (parseArrAux fuel r').map (fun p => ((⟨s⟩ : String) :: p.1, p.2))
        | ']' :: r' => some ([(⟨s⟩ : String)], r')
        | _ => none
    else none

/-- JSON object parser (string keys, string-array values), entered just
after the opening brace. -/
def parseObjAux : ℕ → List Char → Option (List (String × List String) × List Char)
  | 0, _ => none
  | _ + 1, [] => none
  | fuel + 1, c :: rest =>
    if c = '}' then some ([], rest)
    else if c = '"' then
      match parseQStr rest with
      | none => none
      | some (k, r) =>
        match r with
        | ':' :: ' ' :: '[' :: r' =>
          match parseArrAux fuel r' with
          | none => none
          | some (v, r'') =>
            match r'' with
            | ',' :: ' ' :: r3 =>
              (parseObjAux fuel r3).map (fun p => (((⟨k⟩ : String), v) :: p.1, p.2))
            | '}' :: r3 => some ([((⟨k⟩ : String), v)], r3)
            | _ => none
        | _ => none
    else none

/-- Embedding of `json.loads` on the serialized feature list, restricted
to the strings this program stores (images of `dumpsList`). -/
def loadsList (s : String) : List String :=
  match s.data with
  | '[' :: rest => ((parseArrAux (s.data.length) rest).map Prod.fst).getD []
  | _ => []

/-- Embedding of `json.loads` on the serialized tech-stack dictionary,
restricted to the strings this program stores (images of `dumpsDict`). -/
def loadsDict (s : String) : List (String × List String) :=
  match s.data with
  | '{' :: rest => ((parseObjAux (s.data.length) rest).map Prod.fst).getD []
  | _ => []

/-- Database row written by `create_project` (src/app.py:199-212): the
tech stack and feature list are stored as serialized text columns.  The
server-generated surrogate id and timestamps are outside the model. -/
structure StoredProject where
  title : String
  description : String
  project_type : String
  timeline : String
  difficulty : String
  tech_stack : String
  features : String
  deployment_platform : String
  repo_name : String
  include_readme : Bool
  include_license : Bool
  include_gitignore : Bool
  deriving Repr, DecidableEq

/-- Row construction in `create_project` (src/app.py:199-212).  The
`project_type`/`timeline`/`difficulty` fields are indexed directly in the
source after validation has ensured their presence; `getD ""` stands for
that established access. -/
def storedOf (data : Config) : StoredProject :=
  { title := orDefault data.title "Untitled Project"
    description := orDefault data.description ""
    project_type := (data.project_type).getD ""
    timeline := (data.timeline).getD ""
    difficulty := (data.difficulty).getD ""
    tech_stack := dumpsDict ((data.tech_stack).getD [])
    features := dumpsList ((data.features).getD [])
    deployment_platform := (data.deployment_platform).getD "github"
    repo_name := (data.repo_name).getD ""
    include_readme := (data.include_readme).getD true
    include_license := (data.include_license).getD false
    include_gitignore := (data.include_gitignore).getD true }

/-- Configuration as returned by `Project.to_dict` (src/app.py:55-73),
with the serialized columns decoded (id and timestamps omitted as
server-generated). -/
structure RetrievedConfig where
  title : String
  description : String
  project_type : String
  timeline : String
  difficulty : String
  tech_stack : List (String × List String)
  features : List String
  deployment_platform : String
  repo_name : String
  include_readme : Bool
  include_license : Bool
  include_gitignore : Bool
  deriving Repr, DecidableEq

/-- Embedding of `Project.to_dict` (src/app.py:55-73):
`json.loads(self.tech_stack) if self.tech_stack else {}` and the same for
features. -/
def to_dict (p : StoredProject) : RetrievedConfig :=
  { title := p.title
    description := p.description
    project_type := p.project_type
    timeline := p.timeline
    difficulty := p.difficulty
    tech_stack := if p.tech_stack = "" then [] else loadsDict p.tech_stack
    features := if p.features = "" then [] else loadsList p.features
    deployment_platform := p.deployment_platform
    repo_name := p.repo_name
    include_readme := p.include_readme
    include_license := p.include_license
    include_gitignore := p.include_gitignore }

/-- Embedding of the `/api/projects` POST handler `create_project`
(src/app.py:167-229): validation gates the request (400 with the
validator's message on failure), then the record is stored. -/
def create_project_handler (data : Config) : Except (ℕ × String) StoredProject :=
  let v := validate_project_data data
  if v.1 then .ok (storedOf data) else .error (400, (v.2).getD "")

/-- Boolean substring test on character lists (used to state containment
facts about concrete rendered documents). -/
def strContainsAux (pat : List Char) : List Char → Bool
  | [] => pat.isEmpty
  | c :: rest => pat.isPrefixOf (c :: rest) || strContainsAux pat rest

/-- Boolean substring test on strings. -/
def strContains (s pat : String) : Bool := strContainsAux pat.data s.data

/-- Clone step of the getting-started text (specification side). -/
def gsClone (github_username repo_name : String) : String :=
  "1. Clone the repository:\n" ++ "   ```bash\n"
    ++ ("   git clone https://github.com/" ++ github_username ++ "/" ++ repo_name ++ ".git\n")
    ++ ("   cd " ++ repo_name ++ "\n") ++ "   ```\n\n"

/-- Frontend command selection of the getting-started text: React wins
over Vue.js, else a generic placeholder (specification side). -/
def gsFrontendCmds (frontend : List String) : String :=
  if "React" ∈ frontend then "   cd frontend\n" ++ "   npm install\n" ++ "   npm start\n"
  else if "Vue.js" ∈ frontend then "   cd frontend\n" ++ "   npm install\n" ++ "   npm run dev\n"
  else "   # Follow the specific setup instructions for your chosen frontend\n"

/-- Frontend setup step, emitted exactly when the project type is
fullstack or frontend and the frontend list is non-empty (specification
side). -/
def gsFrontendBlock (tech_stack : List (String × List String)) (project_type : String) : String :=
  if (project_type = "fullstack" ∨ project_type = "frontend") ∧ tsGet tech_stack "frontend" ≠ [] then
    "2. Set up frontend:\n" ++ "   ```bash\n" ++ gsFrontendCmds (tsGet tech_stack "frontend")
      ++ "   ```\n\n"
  else ""

/-- Backend command selection of the getting-started text: Python/Flask
wins over Node.js, else a generic placeholder (specification side). -/
def gsBackendCmds (backend : List String) : String :=
  if "Python" ∈ backend ∨ "Flask" ∈ backend then
    "   cd backend\n" ++ "   python -m venv venv\n"
      ++ "   source venv/bin/activate  # On Windows: venv\\Scripts\\activate\n"
      ++ "   pip install -r requirements.txt\n" ++ "   python app.py\n"
  else if "Node.js" ∈ backend then "   cd backend\n" ++ "   npm install\n" ++ "   npm start\n"
  else "   # Follow the specific setup instructions for your chosen backend\n"

/-- Backend setup step, emitted exactly when the project type is
fullstack or backend and the backend list is non-empty (specification
side). -/
def gsBackendBlock (tech_stack : List (String × List String)) (project_type : String) : String :=
  if (project_type = "fullstack" ∨ project_type = "backend") ∧ tsGet tech_stack "backend" ≠ [] then
    "3. Set up backend:\n" ++ "   ```bash\n" ++ gsBackendCmds (tsGet tech_stack "backend")
      ++ "   ```\n\n"
  else ""

/-- Trailing static steps of the getting-started text (specification
side). -/
def gsTrailer : String :=
  "4. Set up environment variables (copy .env.example to .env)\n"
    ++ "5. Start development servers\n"
    ++ "6. Open your browser to the frontend URL\n"

/-- Scenario configuration of the specification: frontend project, 1week,
beginner, React frontend, Authentication feature, repo `test-project`. -/
def scenarioCfg : Config :=
  { project_type := some "frontend", timeline := some "1week", difficulty := some "beginner",
    tech_stack := some [("frontend", ["React"])], features := some ["Authentication"],
    repo_name := some "test-project" }

/-- Configuration with an invalid project type, used to exercise the
generate path. -/
def c3BadCfg : Config :=
  { project_type := some "spaceship", timeline := some "1week", difficulty := some "beginner" }

/-- Validated configuration whose title is present but empty. -/
def c7CexCfg : Config :=
  { title := some "", project_type := some "fullstack", timeline := some "1week",
    difficulty := some "intermediate" }

/-- Fully populated configuration used to witness the round-trip
property. -/
def c7WitCfg : Config :=
  { title := some "My App", description := some "A demo application",
    project_type := some "fullstack", timeline := some "1week",
    difficulty := some "intermediate",
    tech_stack := some [("frontend", ["React", "Vue.js"]), ("backend", ["Flask"])],
    features := some ["Authentication", "CRUD Operations"],
    deployment_platform := some "github", repo_name := some "my-app",
    github_username := some "dev", include_readme := some true,
    include_license := some false, include_gitignore := some true }

/-- Configuration whose difficulty is present but empty. -/
def c5WitCfg : Config :=
  { project_type := some "fullstack", timeline := some "1week", difficulty := some "" }

/-- Configuration with a repo name needing sanitization, containing a
Latin-1 letter. -/
def c6WitCfg : Config :=
  { repo_name := some "My Café Repo!" }

/-- Configuration whose repo name contains a Latin-1 word character that
survives sanitization. -/
def c6CexCfg : Config :=
  { repo_name := some "café" }

/-- Configuration whose timeline is present but empty. -/
def c10WitCfg : Config :=
  { project_type := some "fullstack", timeline := some "", difficulty := some "beginner" }

/-- Fuel weight of a tech-stack dictionary: enough parser steps for its
pairs and array items. -/
def objWeight (d : List (String × List String)) : ℕ :=
  d.length + (d.map (fun p => p.2.length)).sum

set_option maxRecDepth 16384

theorem strAppend_assoc (a b c : String) : a ++ b ++ c = a ++ (b ++ c) := by
  rcases a with ⟨a⟩; rcases b with ⟨b⟩; rcases c with ⟨c⟩
  show String.mk (a ++ b ++ c) = String.mk (a ++ (b ++ c))
  rw [List.append_assoc]

theorem strAppend_empty (a : String) : a ++ "" = a := String.append_empty a

theorem strEmpty_append (a : String) : "" ++ a = a := String.empty_append a

/-- C1: the specification requires the assembled plan to contain the
Timeline Synthesizer and Getting-Started Renderer outputs (and, for the
scenario configuration, a day range such as `Day 1-1`), and the repository
test suite asserts the corresponding section headings appear.  The plan
string `generate_project_plan` actually returns contains the scenario
substrings `Frontend`, `React` and `Authentication` but no day range, no
development-timeline section and no getting-started section, even though
the timeline text the synthesizer computes for this very configuration
does contain `Day 1-1`: the assembler computes those components and then
drops them. -/
theorem c1_plan_omits_generated_sections :
    strContains (generate_project_plan scenarioCfg "2025-06-01 12:00" "2025-06-01") "Frontend" = true
  ∧ strContains (generate_project_plan scenarioCfg "2025-06-01 12:00" "2025-06-01") "React" = true
  ∧ strContains (generate_project_plan scenarioCfg "2025-06-01 12:00" "2025-06-01") "Authentication" = true
  ∧ strContains (generate_timeline_phases (timelineDaysOf "1week") "frontend" "beginner") "Day 1-1" = true
  ∧ strContains (generate_project_plan scenarioCfg "2025-06-01 12:00" "2025-06-01") "Day 1-1" = false
  ∧ strContains (generate_project_plan scenarioCfg "2025-06-01 12:00" "2025-06-01") "Development Timeline" = false
  ∧ strContains (generate_project_plan scenarioCfg "2025-06-01 12:00" "2025-06-01") "Getting Started" = false := by
  decide

/-- C2 counterexample: for a total day-count of 0 the synthesizer does
not select the 4-phase 10/35/35/20 template; the `days <= 3` branch fires
first, giving the 3-phase 20/60/20 template (identical to the one chosen
for 3 days and different from the over-14-day template). -/
theorem c2_counterexample :
    (phasesFor 0).length = 3
  ∧ (phasesFor 0).map (fun p => p.2.1) = [20, 60, 20]
  ∧ phasesFor 0 = phasesFor 3
  ∧ phasesFor 0 ≠ phasesFor 15 := by
  decide

/-- C2 amended: when the total day-count is 0 (the `open` timeline), the
synthesizer selects the at-most-3-day template — 3 phases with
percentages 20/60/20 and the short task lists — and each phase spans
`max(1, round(0)) = 1` day, yielding the ranges Day 1-1, Day 2-2 and
Day 3-3, independently of project type and difficulty. -/
theorem c2_zero_days_selects_short_template (project_type difficulty : String) :
    phasesFor 0 = phasesFor 3
  ∧ (phasesFor 0).map (fun p => p.2.1) = [20, 60, 20]
  ∧ rangesOf 0 = [(1, 1), (2, 2), (3, 3)]
  ∧ generate_timeline_phases 0 project_type difficulty =
      "### Planning & Setup (Day 1-1)\n- [ ] Project setup\n- [ ] Environment configuration\n- [ ] Basic structure\n\n### Core Development (Day 2-2)\n- [ ] Implement main features\n- [ ] Basic functionality\n\n### Testing & Polish (Day 3-3)\n- [ ] Bug fixes\n- [ ] Basic testing\n- [ ] Documentation\n\n" := by
  refine ⟨by decide, by decide, by decide, rfl⟩

/-- C3 counterexample: a configuration with a non-enumerated project type
fails validation, yet the `/api/generate` handler does not reject it — it
renders a plan in which the invalid value even appears (title-cased as
`Spaceship`).  The handler never consults the Validator. -/
theorem c3_counterexample :
    (validate_project_data c3BadCfg = (false, some "Invalid project type: spaceship"))
  ∧ generate_project_handler c3BadCfg "2025-06-01 12:00" "2025-06-01" =
      .ok (generate_project_plan c3BadCfg "2025-06-01 12:00" "2025-06-01")
  ∧ strContains (generate_project_plan c3BadCfg "2025-06-01 12:00" "2025-06-01") "Spaceship" = true := by
  refine ⟨by decide, rfl, by decide⟩

/-- C3 amended: only the persist path (`POST /api/projects`) gates
configurations through the Validator, answering 400 with the validator's
message; the `/api/generate` handler renders every submitted
configuration into a plan without validating it. -/
theorem c3_only_create_path_validates (data : Config) (msg nowDT nowD : String)
    (h : validate_project_data data = (false, some msg)) :
    create_project_handler data = .error (400, msg)
  ∧ generate_project_handler data nowDT nowD = .ok (generate_project_plan data nowDT nowD) := by
  constructor
  · simp [create_project_handler, h]
  · rfl

/-- C3 witness: the amended statement at the concrete invalid
configuration. -/
theorem c3_witness :
    (validate_project_data c3BadCfg = (false, some "Invalid project type: spaceship"))
  ∧ (create_project_handler c3BadCfg = .error (400, "Invalid project type: spaceship")
     ∧ generate_project_handler c3BadCfg "2025-06-01 12:00" "2025-06-01" =
         .ok (generate_project_plan c3BadCfg "2025-06-01 12:00" "2025-06-01")) :=
  ⟨by decide, c3_only_create_path_validates c3BadCfg "Invalid project type: spaceship"
      "2025-06-01 12:00" "2025-06-01" (by decide)⟩

/-- C9: plan generation is total over arbitrary configurations — a plan is
produced even when `project_type`, `timeline` or `difficulty` is absent,
with the defaults `fullstack`, `1week` and `intermediate` substituted, and
every timeline string outside the six enumerated values is mapped to a
7-day count. -/
theorem c9_plan_total_with_defaults (data : Config) (nowDT nowD t : String)
    (ht : t ∉ valid_timelines) :
    generate_project_plan data nowDT nowD =
      generate_project_plan
        { data with
          project_type := some ((data.project_type).getD "fullstack"),
          timeline := some ((data.timeline).getD "1week"),
          difficulty := some ((data.difficulty).getD "intermediate") } nowDT nowD
  ∧ timelineDaysOf t = 7 := by
  constructor
  · rfl
  · simp only [valid_timelines, List.mem_cons, List.mem_singleton, not_or] at ht
    obtain ⟨h1, h2, h3, h4, h5, h6⟩ := ht
    simp [timelineDaysOf, h1, h2, h3, h4, h5, h6]

/-- C9 witness: the empty configuration renders the same plan as one with
the three defaults filled in, and the unknown timeline `someday` maps to
7 days. -/
theorem c9_witness :
    ("someday" ∉ valid_timelines)
  ∧ (generate_project_plan {} "2025-06-01 12:00" "2025-06-01" =
      generate_project_plan
        { project_type := some "fullstack", timeline := some "1week",
          difficulty := some "intermediate" } "2025-06-01 12:00" "2025-06-01"
     ∧ timelineDaysOf "someday" = 7) :=
  ⟨by decide, c9_plan_total_with_defaults {} "2025-06-01 12:00" "2025-06-01" "someday" (by decide)⟩

/-- C10: presence of a required field is tested by truthiness, so a field
bound to the empty string fails with the `Missing required field` message
for that field (the first such field in order), never with the `Invalid`
message for its value. -/
theorem c10_empty_fields_report_missing (data : Config) :
    (data.project_type = some "" →
      validate_project_data data = (false, some "Missing required field: project_type"))
  ∧ (truthyStr data.project_type = true → data.timeline = some "" →
      validate_project_data data = (false, some "Missing required field: timeline"))
  ∧ (truthyStr data.project_type = true → truthyStr data.timeline = true →
      data.difficulty = some "" →
      validate_project_data data = (false, some "Missing required field: difficulty")) := by
  refine ⟨?_, ?_, ?_⟩
  · intro h
    simp [validate_project_data, h, show truthyStr (some "") = false from rfl]
  · intro h1 h2
    simp [validate_project_data, h1, h2, show truthyStr (some "") = false from rfl]
  · intro h1 h2 h3
    simp [validate_project_data, h1, h2, h3, show truthyStr (some "") = false from rfl]

/-- C10 witness: a configuration whose timeline is the empty string is
reported as missing the timeline, not as having an invalid one. -/
theorem c10_witness :
    (truthyStr c10WitCfg.project_type = true) ∧ (c10WitCfg.timeline = some "")
  ∧ validate_project_data c10WitCfg = (false, some "Missing required field: timeline") :=
  ⟨by decide, rfl, (c10_empty_fields_report_missing c10WitCfg).2.1 (by decide) rfl⟩

/-- C5: `validate_project_data` succeeds exactly when the three required
fields are present (truthy) with values in their enumerated sets;
otherwise it returns a single message naming the first offending
field/value, with all presence checks (projectType, timeline, difficulty
in order) performed before any enum-membership check (same order),
short-circuiting at the first violation. -/
theorem c5_validator_characterization (data : Config) :
    ((validate_project_data data).1 = true ↔
      (truthyStr data.project_type = true ∧ truthyStr data.timeline = true ∧
       truthyStr data.difficulty = true ∧
       (data.project_type).getD "" ∈ valid_types ∧
       (data.timeline).getD "" ∈ valid_timelines ∧
       (data.difficulty).getD "" ∈ valid_difficulties))
  ∧ (truthyStr data.project_type = false →
      validate_project_data data = (false, some "Missing required field: project_type"))
  ∧ (truthyStr data.project_type = true → truthyStr data.timeline = false →
      validate_project_data data = (false, some "Missing required field: timeline"))
  ∧ (truthyStr data.project_type = true → truthyStr data.timeline = true →
      truthyStr data.difficulty = false →
      validate_project_data data = (false, some "Missing required field: difficulty"))
  ∧ (truthyStr data.project_type = true → truthyStr data.timeline = true →
      truthyStr data.difficulty = true → (data.project_type).getD "" ∉ valid_types →
      validate_project_data data =
        (false, some ("Invalid project type: " ++ (data.project_type).getD "")))
  ∧ (truthyStr data.project_type = true → truthyStr data.timeline = true →
      truthyStr data.difficulty = true → (data.project_type).getD "" ∈ valid_types →
      (data.timeline).getD "" ∉ valid_timelines →
      validate_project_data data =
        (false, some ("Invalid timeline: " ++ (data.timeline).getD "")))
  ∧ (truthyStr data.project_type = true → truthyStr data.timeline = true →
      truthyStr data.difficulty = true → (data.project_type).getD "" ∈ valid_types →
      (data.timeline).getD "" ∈ valid_timelines →
      (data.difficulty).getD "" ∉ valid_difficulties →
      validate_project_data data =
        (false, some ("Invalid difficulty: " ++ (data.difficulty).getD "")))
  ∧ (truthyStr data.project_type = true → truthyStr data.timeline = true →
      truthyStr data.difficulty = true → (data.project_type).getD "" ∈ valid_types →
      (data.timeline).getD "" ∈ valid_timelines →
      (data.difficulty).getD "" ∈ valid_difficulties →
      validate_project_data data = (true, none)) := by
  simp only [validate_project_data]
  split_ifs with h1 h2 h3 h4 h5 h6 <;> simp_all

/-- C5 witness: a configuration whose difficulty is present but empty is
rejected with the missing-difficulty message. -/
theorem c5_witness :
    (truthyStr c5WitCfg.difficulty = false)
  ∧ validate_project_data c5WitCfg = (false, some "Missing required field: difficulty") :=
  ⟨by decide, (c5_validator_characterization c5WitCfg).2.2.2.1 (by decide) (by decide) (by decide)⟩

/-- Helper: after lower-casing and space-to-hyphen mapping no ASCII or
Latin-1 uppercase letter (code points 65-90, or 192-222 except 215)
remains. -/
theorem sanitized_char_not_upper (a : Char) :
    ¬((65 ≤ (spaceToHyphen (pyLowerChar a)).toNat ∧ (spaceToHyphen (pyLowerChar a)).toNat ≤ 90)
      ∨ (192 ≤ (spaceToHyphen (pyLowerChar a)).toNat ∧ (spaceToHyphen (pyLowerChar a)).toNat ≤ 222
          ∧ (spaceToHyphen (pyLowerChar a)).toNat ≠ 215)) := by
  by_cases h : (65 ≤ a.toNat ∧ a.toNat ≤ 90) ∨ (192 ≤ a.toNat ∧ a.toNat ≤ 222 ∧ a.toNat ≠ 215)
  · have hlow : pyLowerChar a = Char.ofNat (a.toNat + 32) := by
      simp only [pyLowerChar]
      rw [if_pos h]
    rw [hlow]
    rcases h with ⟨h1, h2⟩ | ⟨h1, h2, h3⟩
    · set k := a.toNat with hk
      interval_cases k <;> decide
    · set k := a.toNat with hk
      interval_cases k <;> first | exact absurd rfl h3 | decide
  · have hlow : pyLowerChar a = a := by
      simp only [pyLowerChar]
      rw [if_neg h]
    rw [hlow]
    by_cases hsp : a = ' '
    · subst hsp; decide
    · simp only [spaceToHyphen, if_neg hsp]
      exact h

/-- C6 amended: for a submitted repo name of Latin-1 text (the domain on
which the embedded `\w` and `str.lower` are exact), the download handler
uses the name lower-cased, spaces mapped to hyphens, and every character
outside Python's `\w ∪ {-}` dropped; the result contains only word
characters and hyphens, no uppercase letter and no space survives, and
the archive filename is the sanitized name plus `.zip`.  Only when the
submitted name is pure ASCII is the result confined to `[a-z0-9_-]`
(code points 97-122, 48-57, 95, 45); Latin-1 word characters such as `é`
are kept, which is what refutes the original claim. -/
theorem c6_download_sanitization (project : Config) (rn : String)
    (h : project.repo_name = some rn) (hL : ∀ c ∈ rn.data, c.toNat < 256) :
    download_repo_name project = sanitizeRepoName rn
  ∧ sanitizeRepoName rn = ⟨((rn.data.map pyLowerChar).map spaceToHyphen).filter allowedRepoChar⟩
  ∧ (∀ c ∈ (sanitizeRepoName rn).data, pyWordChar c = true ∨ c.toNat = 45)
  ∧ (∀ c ∈ (sanitizeRepoName rn).data,
      ¬((65 ≤ c.toNat ∧ c.toNat ≤ 90) ∨ (192 ≤ c.toNat ∧ c.toNat ≤ 222 ∧ c.toNat ≠ 215)))
  ∧ ' ' ∉ (sanitizeRepoName rn).data
  ∧ ((∀ c ∈ rn.data, c.toNat < 128) → ∀ c ∈ (sanitizeRepoName rn).data,
      (97 ≤ c.toNat ∧ c.toNat ≤ 122) ∨ (48 ≤ c.toNat ∧ c.toNat ≤ 57)
        ∨ c.toNat = 95 ∨ c.toNat = 45)
  ∧ download_filename project = sanitizeRepoName rn ++ ".zip" := by
  refine ⟨by simp [download_repo_name, h], rfl, ?_, ?_, ?_, ?_, ?_⟩
  · intro c hc
    have hp : allowedRepoChar c = true := (List.mem_filter.mp hc).2
    simp only [allowedRepoChar, Bool.or_eq_true, decide_eq_true_eq] at hp
    exact hp
  · intro c hc
    have hm : c ∈ (rn.data.map pyLowerChar).map spaceToHyphen := (List.mem_filter.mp hc).1
    rw [List.map_map] at hm
    obtain ⟨a, _, rfl⟩ := List.mem_map.mp hm
    exact sanitized_char_not_upper a
  · intro hc
    have hp : allowedRepoChar ' ' = true := (List.mem_filter.mp hc).2
    simp [allowedRepoChar, pyWordChar] at hp
  · intro hA c hc
    have hp : allowedRepoChar c = true := (List.mem_filter.mp hc).2
    have hm : c ∈ (rn.data.map pyLowerChar).map spaceToHyphen := (List.mem_filter.mp hc).1
    rw [List.map_map] at hm
    obtain ⟨a, ha, rfl⟩ := List.mem_map.mp hm
    have hcomp : (spaceToHyphen ∘ pyLowerChar) a = spaceToHyphen (pyLowerChar a) := rfl
    rw [hcomp] at hp ⊢
    have ha128 : a.toNat < 128 := hA a ha
    by_cases hup : 65 ≤ a.toNat ∧ a.toNat ≤ 90
    · have hlow : pyLowerChar a = Char.ofNat (a.toNat + 32) := by
        simp only [pyLowerChar]
        rw [if_pos (Or.inl hup)]
      rw [hlow]
      obtain ⟨h1, h2⟩ := hup
      set k := a.toNat with hk
      interval_cases k <;> decide
    · have hnot : ¬((65 ≤ a.toNat ∧ a.toNat ≤ 90)
          ∨ (192 ≤ a.toNat ∧ a.toNat ≤ 222 ∧ a.toNat ≠ 215)) := by omega
      have hlow : pyLowerChar a = a := by
        simp only [pyLowerChar]
        rw [if_neg hnot]
      rw [hlow] at hp ⊢
      by_cases hsp : a = ' '
      · subst hsp; decide
      · have hsh : spaceToHyphen a = a := by
          simp only [spaceToHyphen]
          rw [if_neg hsp]
        rw [hsh] at hp ⊢
        simp only [allowedRepoChar, pyWordChar, Bool.or_eq_true, decide_eq_true_eq] at hp
        omega
  · simp [download_filename, download_repo_name, h]

/-- C6 witness: the amended statement at the concrete repo name
`My Café Repo!`, which sanitizes to `my-café-repo` (space to hyphen,
`!` dropped, the Latin-1 letter kept). -/
theorem c6_witness :
    (c6WitCfg.repo_name = some "My Café Repo!"
     ∧ ∀ c ∈ ("My Café Repo!" : String).data, c.toNat < 256)
  ∧ (download_repo_name c6WitCfg = sanitizeRepoName "My Café Repo!"
     ∧ sanitizeRepoName "My Café Repo!" =
         ⟨((("My Café Repo!" : String).data.map pyLowerChar).map spaceToHyphen).filter allowedRepoChar⟩
     ∧ (∀ c ∈ (sanitizeRepoName "My Café Repo!").data, pyWordChar c = true ∨ c.toNat = 45)
     ∧ (∀ c ∈ (sanitizeRepoName "My Café Repo!").data,
         ¬((65 ≤ c.toNat ∧ c.toNat ≤ 90) ∨ (192 ≤ c.toNat ∧ c.toNat ≤ 222 ∧ c.toNat ≠ 215)))
     ∧ ' ' ∉ (sanitizeRepoName "My Café Repo!").data
     ∧ ((∀ c ∈ ("My Café Repo!" : String).data, c.toNat < 128) →
         ∀ c ∈ (sanitizeRepoName "My Café Repo!").data,
           (97 ≤ c.toNat ∧ c.toNat ≤ 122) ∨ (48 ≤ c.toNat ∧ c.toNat ≤ 57)
             ∨ c.toNat = 95 ∨ c.toNat = 45)
     ∧ download_filename c6WitCfg = sanitizeRepoName "My Café Repo!" ++ ".zip")
  ∧ sanitizeRepoName "My Café Repo!" = "my-café-repo" :=
  ⟨⟨rfl, by decide⟩, c6_download_sanitization c6WitCfg "My Café Repo!" rfl (by decide), by decide⟩

/-- C6 counterexample: Python's `\w` on `str` patterns is Unicode-aware,
so the submitted repo name `café` sanitizes to `café` and the download
filename is `café.zip` — the repository name contains `é`, a character
outside `[A-Za-z0-9_-]` (it is neither an ASCII letter nor a digit nor
underscore nor hyphen), refuting the claim that the sanitized name
contains only characters from that class. -/
theorem c6_counterexample :
    download_repo_name c6CexCfg = "café"
  ∧ download_filename c6CexCfg = "café.zip"
  ∧ 'é' ∈ (download_repo_name c6CexCfg).data
  ∧ ¬('é'.isAlpha ∨ 'é'.isDigit ∨ 'é' = '_' ∨ 'é' = '-') := by
  decide

/-- C8: the getting-started text always opens with the clone step and
always ends with the trailing static steps; the frontend setup step is
emitted exactly when the project type is fullstack or frontend and the
frontend list is non-empty, with React commands when the literal string
`React` is in the list, Vue commands when `Vue.js` is (React taking
precedence), and a generic placeholder otherwise; symmetrically the
backend setup step is emitted exactly when the project type is fullstack
or backend and the backend list is non-empty, with Python/Flask commands
when `Python` or `Flask` is in the list, Node commands when `Node.js` is,
and a generic placeholder otherwise.  Detection is case-sensitive exact
string membership. -/
theorem c8_getting_started_structure (tech_stack : List (String × List String))
    (project_type github_username repo_name : String) :
    generate_getting_started tech_stack project_type github_username repo_name =
      gsClone github_username repo_name
        ++ gsFrontendBlock tech_stack project_type
        ++ gsBackendBlock tech_stack project_type
        ++ gsTrailer := by
  simp only [generate_getting_started, gsClone, gsFrontendBlock, gsFrontendCmds,
    gsBackendBlock, gsBackendCmds, gsTrailer, List.mem_cons, List.mem_singleton,
    List.not_mem_nil, or_false]
  split_ifs <;> simp [strAppend_assoc, strAppend_empty, strEmpty_append]

/-- Helper: round-half-to-even over 100 is monotone. -/
theorem pyRound100_mono {n m : ℕ} (h : n ≤ m) : pyRound100 n ≤ pyRound100 m := by
  simp only [pyRound100]
  split_ifs <;> omega

/-- Helper: every phase spans at least one day. -/
theorem phaseSpan_one_le (days pct : ℕ) : 1 ≤ phaseSpan days pct :=
  le_max_left 1 _

/-- Helper: a phase span is monotone in the day count. -/
theorem phaseSpan_mono {d e : ℕ} (pct : ℕ) (h : d ≤ e) :
    phaseSpan d pct ≤ phaseSpan e pct :=
  max_le_max (le_refl 1) (pyRound100_mono (Nat.mul_le_mul_right pct h))

/-- Helper: the laid-out phase ranges have widths equal to the computed
spans `max(1, round(days * pct / 100))`. -/
theorem layout_spans (days : ℕ) (ps : List (String × ℕ × List String)) :
    ∀ s, (layoutPhases days s ps).map (fun p => p.2.2.1 + 1 - p.2.1) =
      ps.map (fun p => phaseSpan days p.2.1) := by
  induction ps with
  | nil => intro s; rfl
  | cons p rest ih =>
    intro s
    obtain ⟨name, pct, tasks⟩ := p
    have h1 : 1 ≤ phaseSpan days pct := phaseSpan_one_le days pct
    simp only [layoutPhases, List.map_cons, ih, List.cons.injEq]
    refine ⟨?_, trivial⟩
    show s + phaseSpan days pct - 1 + 1 - s = phaseSpan days pct
    omega

/-- Helper: the sequential layout produces contiguous ranges from the
start day. -/
theorem layout_contiguous (days : ℕ) (ps : List (String × ℕ × List String)) :
    ∀ s, Contiguous s ((layoutPhases days s ps).map (fun p => (p.2.1, p.2.2.1))) := by
  induction ps with
  | nil => intro s; trivial
  | cons p rest ih =>
    intro s
    obtain ⟨name, pct, tasks⟩ := p
    have h1 : 1 ≤ phaseSpan days pct := phaseSpan_one_le days pct
    refine ⟨rfl, show s ≤ s + phaseSpan days pct - 1 by omega, ?_⟩
    show Contiguous (s + phaseSpan days pct - 1 + 1) _
    have heq : s + phaseSpan days pct - 1 + 1 = s + phaseSpan days pct := by omega
    rw [heq]
    exact ih (s + phaseSpan days pct)

/-- Helper: the total span does not decrease from `d` to `d + 1`; day
counts up to 14 (covering all bucket boundaries) are checked by
evaluation, larger ones stay in the final bucket and grow termwise. -/
theorem totalSpan_step (d : ℕ) (hd : 1 ≤ d) : totalSpan d ≤ totalSpan (d + 1) := by
  by_cases h15 : 15 ≤ d
  · have ha : ¬ d ≤ 3 := by omega
    have hb : ¬ d ≤ 7 := by omega
    have hc : ¬ d ≤ 14 := by omega
    have ha' : ¬ d + 1 ≤ 3 := by omega
    have hb' : ¬ d + 1 ≤ 7 := by omega
    have hc' : ¬ d + 1 ≤ 14 := by omega
    simp only [totalSpan, phasesFor, if_neg ha, if_neg hb, if_neg hc,
      if_neg ha', if_neg hb', if_neg hc', List.map_cons, List.map_nil, List.sum_cons,
      List.sum_nil]
    have m1 := phaseSpan_mono (d := d) (e := d + 1) 10 (by omega)
    have m2 := phaseSpan_mono (d := d) (e := d + 1) 35 (by omega)
    have m3 := phaseSpan_mono (d := d) (e := d + 1) 20 (by omega)
    omega
  · have hub : d ≤ 14 := by omega
    interval_cases d <;> decide

/-- Helper: the total span is monotone over positive day counts. -/
theorem totalSpan_mono {d e : ℕ} (hd : 1 ≤ d) (hde : d ≤ e) :
    totalSpan d ≤ totalSpan e := by
  induction e with
  | zero => omega
  | succ n ih =>
    rcases Nat.lt_or_ge d (n + 1) with hlt | hge
    · exact le_trans (ih (by omega)) (totalSpan_step n (by omega))
    · have : d = n + 1 := by omega
      subst this
      exact le_refl _

/-- C4: for every day count `d > 0` (and any project type/difficulty,
which the synthesizer ignores) the phase spans equal
`max(1, round(d * pct / 100))` for the selected bucket percentages, the
day ranges are contiguous from day 1 with ends no earlier than starts,
and the sum of the spans is non-decreasing in the day count. -/
theorem c4_timeline_phase_laws (d e : ℕ) (project_type difficulty : String)
    (hd : 0 < d) (hde : d ≤ e) :
    ((layoutPhases d 1 (phasesFor d)).map (fun p => p.2.2.1 + 1 - p.2.1) =
      (phasesFor d).map (fun p => phaseSpan d p.2.1))
  ∧ Contiguous 1 (rangesOf d)
  ∧ totalSpan d ≤ totalSpan e
  ∧ generate_timeline_phases d project_type difficulty =
      generate_timeline_phases d "fullstack" "beginner" :=
  ⟨layout_spans d (phasesFor d) 1, layout_contiguous d (phasesFor d) 1,
   totalSpan_mono hd hde, rfl⟩

/-- C4 witness: the laws at `d = 7`, `e = 9`, where the layout is
Day 1-1, 2-5, 6-7, 8-8 (the documented over-sum to 8 days). -/
theorem c4_witness :
    (0 < 7 ∧ 7 ≤ 9)
  ∧ (((layoutPhases 7 1 (phasesFor 7)).map (fun p => p.2.2.1 + 1 - p.2.1) =
        (phasesFor 7).map (fun p => phaseSpan 7 p.2.1))
     ∧ Contiguous 1 (rangesOf 7)
     ∧ totalSpan 7 ≤ totalSpan 9
     ∧ generate_timeline_phases 7 "frontend" "expert" =
         generate_timeline_phases 7 "fullstack" "beginner")
  ∧ rangesOf 7 = [(1, 1), (2, 5), (6, 7), (8, 8)] :=
  ⟨by decide, c4_timeline_phase_laws 7 9 "frontend" "expert" (by decide) (by decide), by decide⟩

/-- Helper: the string parser inverts the escaper for every character
list. -/
theorem parseQStr_round (s : List Char) :
    ∀ rest : List Char, parseQStr (escapeJson s ++ ('"' :: rest)) = some (s, rest) := by
  induction s with
  | nil => intro rest; cases rest <;> simp [escapeJson, parseQStr]
  | cons c cs ih =>
    intro rest
    by_cases hc : c = '"' ∨ c = '\\'
    · have hesc : escapeJsonChar c = ['\\', c] := by simp [escapeJsonChar, hc]
      simp [escapeJson, hesc, parseQStr, hc, ih rest]
    · push_neg at hc
      have hesc : escapeJsonChar c = [c] := by
        simp [escapeJsonChar, hc.1, hc.2]
      rcases htl : escapeJson cs ++ '"' :: rest with _ | ⟨e2, tl⟩
      · exact absurd (List.append_eq_nil.mp htl).2 (by simp)
      · simp only [escapeJson, hesc, List.cons_append, List.nil_append, htl]
        rw [parseQStr.eq_3]
        rw [if_neg hc.1, if_neg hc.2, ← htl, ih rest]
        rfl

/-- Helper: rebuilding a string from its character data is the
identity. -/
theorem strMk_data (s : String) : String.mk s.data = s := rfl

/-- Helper: the array parser inverts the array encoder given enough
fuel. -/
theorem parseArr_round (l : List String) :
    ∀ (fuel : ℕ) (rest : List Char), l.length < fuel →
      parseArrAux fuel (jsonArrBody l ++ rest) = some (l, rest) := by
  induction l with
  | nil =>
    intro fuel rest hf
    cases fuel with
    | zero => omega
    | succ f => simp [jsonArrBody, parseArrAux]
  | cons s tail ih =>
    intro fuel rest hf
    cases fuel with
    | zero => omega
    | succ f =>
      cases tail with
      | nil =>
        have hb : jsonArrBody [s] ++ rest =
            '"' :: (escapeJson s.data ++ ('"' :: (']' :: rest))) := by
          simp [jsonArrBody, jsonQuote, List.append_assoc]
        rw [hb]
        simp only [parseArrAux, parseQStr_round s.data (']' :: rest)]
        simp [strMk_data]
      | cons t tl2 =>
        have hb : jsonArrBody (s :: t :: tl2) ++ rest =
            '"' :: (escapeJson s.data ++ ('"' :: (',' :: ' ' :: (jsonArrBody (t :: tl2) ++ rest)))) := by
          simp [jsonArrBody, jsonQuote, List.append_assoc]
        have hlen : (t :: tl2).length < f := by
          simp only [List.length_cons] at hf ⊢
          omega
        rw [hb]
        simp only [parseArrAux, parseQStr_round s.data, ih f rest hlen]
        simp [strMk_data]


/-- Helper: the object parser inverts the object encoder given enough
fuel. -/
theorem parseObj_round (d : List (String × List String)) :
    ∀ (fuel : ℕ) (rest : List Char), objWeight d < fuel →
      parseObjAux fuel (jsonObjBody d ++ rest) = some (d, rest) := by
  induction d with
  | nil =>
    intro fuel rest hf
    cases fuel with
    | zero => simp [objWeight] at hf
    | succ f => simp [jsonObjBody, parseObjAux]
  | cons p tail ih =>
    obtain ⟨k, v⟩ := p
    intro fuel rest hf
    cases fuel with
    | zero => simp [objWeight] at hf
    | succ f =>
      cases tail with
      | nil =>
        have hb : jsonObjBody [(k, v)] ++ rest =
            '"' :: (escapeJson k.data ++
              ('"' :: (':' :: ' ' :: '[' :: (jsonArrBody v ++ ('}' :: rest))))) := by
          simp [jsonObjBody, jsonQuote, List.append_assoc]
        have hlen : v.length < f := by
          simp only [objWeight, List.length_cons, List.length_nil, List.map_cons,
            List.map_nil, List.sum_cons, List.sum_nil] at hf
          omega
        rw [hb]
        simp only [parseObjAux, parseQStr_round k.data,
          parseArr_round v f ('}' :: rest) hlen]
        simp [strMk_data]
      | cons q tl2 =>
        have hb : jsonObjBody ((k, v) :: q :: tl2) ++ rest =
            '"' :: (escapeJson k.data ++
              ('"' :: (':' :: ' ' :: '[' ::
                (jsonArrBody v ++ (',' :: ' ' :: (jsonObjBody (q :: tl2) ++ rest)))))) := by
          simp [jsonObjBody, jsonQuote, List.append_assoc]
        have hlenv : v.length < f := by
          simp only [objWeight, List.length_cons, List.map_cons, List.sum_cons] at hf
          omega
        have hlent : objWeight (q :: tl2) < f := by
          simp only [objWeight, List.length_cons, List.map_cons, List.sum_cons] at hf ⊢
          omega
        rw [hb]
        simp only [parseObjAux, parseQStr_round k.data,
          parseArr_round v f _ hlenv, ih f rest hlent]
        simp [strMk_data]

/-- Helper: an encoded array is at least as long as its item count. -/
theorem jsonArrBody_length (l : List String) : l.length ≤ (jsonArrBody l).length := by
  induction l with
  | nil => simp [jsonArrBody]
  | cons s tail ih =>
    cases tail with
    | nil => simp [jsonArrBody, jsonQuote]
    | cons t tl2 =>
      simp only [jsonArrBody, jsonQuote, List.length_cons, List.append_assoc,
        List.length_append] at ih ⊢
      omega

/-- Helper: an encoded object is at least as long as its fuel weight. -/
theorem jsonObjBody_weight (d : List (String × List String)) :
    objWeight d ≤ (jsonObjBody d).length := by
  induction d with
  | nil => simp [objWeight, jsonObjBody]
  | cons p tail ih =>
    obtain ⟨k, v⟩ := p
    cases tail with
    | nil =>
      have hv := jsonArrBody_length v
      simp only [objWeight, jsonObjBody, jsonQuote, List.length_cons, List.length_nil,
        List.map_cons, List.map_nil, List.sum_cons, List.sum_nil, List.append_assoc,
        List.length_append] at hv ⊢
      omega
    | cons q tl2 =>
      have hv := jsonArrBody_length v
      simp only [objWeight, jsonObjBody, jsonQuote, List.length_cons,
        List.map_cons, List.sum_cons, List.append_assoc, List.length_append] at hv ih ⊢
      omega

/-- Helper: decoding a dumped feature list returns the original list. -/
theorem loadsList_dumpsList (l : List String) : loadsList (dumpsList l) = l := by
  have hlen : l.length < ('[' :: jsonArrBody l).length := by
    have := jsonArrBody_length l
    simp only [List.length_cons]
    omega
  have h := parseArr_round l ('[' :: jsonArrBody l).length [] hlen
  rw [List.append_nil] at h
  show ((parseArrAux ('[' :: jsonArrBody l).length (jsonArrBody l)).map Prod.fst).getD [] = l
  rw [h]
  rfl

/-- Helper: decoding a dumped tech-stack dictionary returns the original
dictionary. -/
theorem loadsDict_dumpsDict (d : List (String × List String)) :
    loadsDict (dumpsDict d) = d := by
  have hlen : objWeight d < ('{' :: jsonObjBody d).length := by
    have := jsonObjBody_weight d
    simp only [List.length_cons]
    omega
  have h := parseObj_round d ('{' :: jsonObjBody d).length [] hlen
  rw [List.append_nil] at h
  show ((parseObjAux ('{' :: jsonObjBody d).length (jsonObjBody d)).map Prod.fst).getD [] = d
  rw [h]
  rfl

/-- Helper: a dumped dictionary is never the empty string. -/
theorem dumpsDict_ne_empty (d : List (String × List String)) : dumpsDict d ≠ "" := by
  intro h
  have hd := congrArg String.data h
  simp [dumpsDict] at hd

/-- Helper: a dumped list is never the empty string. -/
theorem dumpsList_ne_empty (l : List String) : dumpsList l ≠ "" := by
  intro h
  have hd := congrArg String.data h
  simp [dumpsList] at hd

/-- C7 counterexample: a validated configuration whose title is present
but empty is not returned structurally equal — the stored and retrieved
title is the placeholder `Untitled Project`, not the submitted empty
string, because creation applies `data.get('title') or 'Untitled
Project'`. -/
theorem c7_counterexample :
    (validate_project_data c7CexCfg).1 = true
  ∧ c7CexCfg.title = some ""
  ∧ (to_dict (storedOf c7CexCfg)).title = "Untitled Project" := by
  refine ⟨by decide, rfl, by decide⟩

/-- C7 amended: for every configuration that passes validation, creating
it and retrieving it yields the stored configuration in which the
techStack mapping and the features list decode from their serialized text
columns back to exactly the submitted structured values, and every scalar
field carries the submitted value with the creation defaults applied to
absent or falsy optional fields — so when title and description are
present and non-empty, every submitted field value round-trips
unchanged. -/
theorem c7_roundtrip_with_defaults (data : Config)
    (hv : (validate_project_data data).1 = true)
    (htitle : truthyStr data.title = true) (hdesc : truthyStr data.description = true) :
    create_project_handler data = .ok (storedOf data)
  ∧ (to_dict (storedOf data)).tech_stack = (data.tech_stack).getD []
  ∧ (to_dict (storedOf data)).features = (data.features).getD []
  ∧ (to_dict (storedOf data)).title = (data.title).getD ""
  ∧ (to_dict (storedOf data)).description = (data.description).getD ""
  ∧ (to_dict (storedOf data)).project_type = (data.project_type).getD ""
  ∧ (to_dict (storedOf data)).timeline = (data.timeline).getD ""
  ∧ (to_dict (storedOf data)).difficulty = (data.difficulty).getD ""
  ∧ (to_dict (storedOf data)).deployment_platform = (data.deployment_platform).getD "github"
  ∧ (to_dict (storedOf data)).repo_name = (data.repo_name).getD ""
  ∧ (to_dict (storedOf data)).include_readme = (data.include_readme).getD true
  ∧ (to_dict (storedOf data)).include_license = (data.include_license).getD false
  ∧ (to_dict (storedOf data)).include_gitignore = (data.include_gitignore).getD true := by
  refine ⟨?_, ?_, ?_, ?_, ?_, rfl, rfl, rfl, rfl, rfl, rfl, rfl, rfl⟩
  · simp [create_project_handler, hv]
  · show (if dumpsDict ((data.tech_stack).getD []) = "" then []
      else loadsDict (dumpsDict ((data.tech_stack).getD []))) = (data.tech_stack).getD []
    rw [if_neg (dumpsDict_ne_empty _), loadsDict_dumpsDict]
  · show (if dumpsList ((data.features).getD []) = "" then []
      else loadsList (dumpsList ((data.features).getD []))) = (data.features).getD []
    rw [if_neg (dumpsList_ne_empty _), loadsList_dumpsList]
  · show orDefault data.title "Untitled Project" = (data.title).getD ""
    cases h : data.title with
    | none => rw [h] at htitle; simp [truthyStr] at htitle
    | some t =>
      rw [h] at htitle
      have ht : t ≠ "" := by simpa [truthyStr] using htitle
      simp [orDefault, ht]
  · show orDefault data.description "" = (data.description).getD ""
    cases h : data.description with
    | none => rw [h] at hdesc; simp [truthyStr] at hdesc
    | some t =>
      rw [h] at hdesc
      have ht : t ≠ "" := by simpa [truthyStr] using hdesc
      simp [orDefault, ht]

/-- C7 witness: the round trip at a fully populated configuration, whose
tech stack and features come back unchanged. -/
theorem c7_witness :
    ((validate_project_data c7WitCfg).1 = true
     ∧ truthyStr c7WitCfg.title = true ∧ truthyStr c7WitCfg.description = true)
  ∧ (create_project_handler c7WitCfg = .ok (storedOf c7WitCfg)
     ∧ (to_dict (storedOf c7WitCfg)).tech_stack =
         [("frontend", ["React", "Vue.js"]), ("backend", ["Flask"])]
     ∧ (to_dict (storedOf c7WitCfg)).features = ["Authentication", "CRUD Operations"]
     ∧ (to_dict (storedOf c7WitCfg)).title = "My App"
     ∧ (to_dict (storedOf c7WitCfg)).description = "A demo application") := by
  refine ⟨⟨by decide, by decide, by decide⟩, ?_⟩
  have h := c7_roundtrip_with_defaults c7WitCfg (by decide) (by decide) (by decide)
  exact ⟨h.1, h.2.1, h.2.2.1, h.2.2.2.1, h.2.2.2.2.1⟩
